import Mathlib

/-!
Verification of the eBay MCP server core (src/ebay-mcp/ebayAPItool.py and
src/ebay-mcp/server.py) against its natural-language specification.

The Python source is shallowly embedded:
* JSON / Python runtime values become the inductive `PyVal`, with Python
  truthiness as `truthy` and `dict.get` as `pyGet` / `pyGetD` (a `.get` on a
  non-dict value raises `AttributeError`, modelled by the `Except` error arm).
* `get_access_token` becomes a pure function of the cached-token file content,
  the current time, and the (single, at most once consulted) OAuth response;
  its outcome records the result, the number of network calls, the number of
  file writes, and the final file content.
* `_paginate_request`'s `while` loop becomes the fuel-indexed `paginateFuel`;
  `none` marks fuel exhaustion, and fuel `max_results` is proved sufficient,
  so `_paginate_request` (fuel = `max_results`) equals the loop's semantics.
  The endpoint is a function from (offset, limit) to a page response; the
  environment name resolved by `get_ebay_environment` is threaded as a value.
* `handle_call_tool`'s dispatch is embedded with the effectful API calls
  abstracted as an oracle record `ToolEffects` (each entry is the `str`-rendered
  payload or the raised exception's message); exceptions escaping to the MCP
  framework are the `Except.error` arm, caught-and-rendered failures are
  `Except.ok` text contents.
-/

/-- Python / JSON runtime values, as far as the embedded code inspects them. -/
inductive PyVal where
  | null
  | str (s : String)
  | int (n : Int)
  | dict (fields : List (String × PyVal))
  | list (xs : List PyVal)

/-- Python truthiness for the values above: `None`, `""`, `0`, `{}`, `[]`
are falsy, everything else truthy. -/
def truthy : PyVal → Bool
  | .null => false
  | .str s => !s.isEmpty
  | .int n => n != 0
  | .dict fields => !fields.isEmpty
  | .list xs => !xs.isEmpty

/-- `d.get(k)` on a dict given as an association list: the stored value when
the key is present (possibly `null`), `None` when absent. -/
def aget (fields : List (String × PyVal)) (k : String) : PyVal :=
  (fields.lookup k).getD .null

/-- Python `v.get(k)`: only dicts have `.get`; any other receiver raises
`AttributeError`. -/
def pyGet (v : PyVal) (k : String) : Except String PyVal :=
  match v with
  | .dict fields => .ok (aget fields k)
  | _ => .error "AttributeError"

/-- Python `v.get(k, d)`: the default is used only when the key is absent
(a key present with value `None` still returns `None`). -/
def pyGetD (v : PyVal) (k : String) (d : PyVal) : Except String PyVal :=
  match v with
  | .dict fields => .ok ((fields.lookup k).getD d)
  | _ => .error "AttributeError"

/-- Python `a or b`: `a` when truthy, else `b`. -/
def pyOr (a b : PyVal) : PyVal :=
  if truthy a then a else b

/-! ## Token cache (`get_access_token`, ebayAPItool.py lines 35-89) -/

/-- The persisted token file content: `access_token` and the ISO timestamp
`expires_at` (modelled as an integer instant on one consistent clock). -/
structure CachedToken where
  access_token : String
  expires_at : Int
deriving DecidableEq

/-- The OAuth endpoint's response to the single `requests.post`: HTTP status,
and the decoded JSON body's `access_token` / `expires_in` fields together with
the raw `response.text`. -/
structure OAuthResponse where
  status : Nat
  accessToken : String
  expiresIn : Nat
  text : String
deriving DecidableEq

/-- The exceptions `get_access_token` can raise: the `ValueError` for a
missing credential, and the `RuntimeError` carrying status and body text. -/
inductive TokenError where
  | missingCredential
  | oauthFailure (status : Nat) (body : String)
deriving DecidableEq

/-- Observable outcome of one `get_access_token` call: the returned token or
raised error, how many OAuth network calls were made, how many file writes
happened, and the final token-file content. -/
structure TokenOutcome where
  result : Except TokenError String
  networkCalls : Nat
  fileWrites : Nat
  finalFile : Option CachedToken

/-- The mint path of `get_access_token` (lines 59-89): one POST; on status
exactly 200 decode the body, overwrite the token file in full with the new
record whose `expires_at = now + expires_in`, and return the token; on any
other status raise `RuntimeError` with status and body, writing nothing. -/
def mint_new_token (file : Option CachedToken) (now : Int)
    (resp : OAuthResponse) : TokenOutcome :=
  if resp.status = 200 then
    ⟨.ok resp.accessToken, 1, 1,
      some ⟨resp.accessToken, now + (resp.expiresIn : Int)⟩⟩
  else
    ⟨.error (.oauthFailure resp.status resp.text), 1, 0, file⟩

/-- `get_access_token(CLIENT_ID, CLIENT_SECRET)` (lines 35-89): reject empty
credentials first; then, if the token file exists and its `expires_at` is
strictly after now, return the cached token with no network call and no
write; otherwise mint a new token. -/
def get_access_token (clientId clientSecret : String)
    (file : Option CachedToken) (now : Int) (resp : OAuthResponse) :
    TokenOutcome :=
  if clientId = "" ∨ clientSecret = "" then
    ⟨.error .missingCredential, 0, 0, file⟩
  else
    match file with
    | some t =>
        if now < t.expires_at then ⟨.ok t.access_token, 0, 0, file⟩
        else mint_new_token file now resp
    | none => mint_new_token file now resp

/-! ## Paginating fetcher (`_paginate_request`, ebayAPItool.py lines 135-174) -/

/-- One page response: HTTP status, raw body text, and the decoded JSON
body's array at `results_key` (`none` when the key is absent; the code
defaults an absent key to `[]`). -/
structure PageResponse (α : Type) where
  status : Nat
  text : String
  items : Option (List α)

/-- The `RuntimeError` raised on a page with status ≥ 400: it carries the
status, the response body, and the environment name. -/
structure PagError where
  status : Nat
  body : String
  envName : String
deriving DecidableEq

/-- The endpoint as seen by the loop: a page response for each
(offset, limit) request. -/
def PageEndpoint (α : Type) : Type := Nat → Nat → PageResponse α

/-- The `while len(collected) < max_results` loop of `_paginate_request`,
indexed by fuel bounding the number of iterations; `none` is fuel
exhaustion (proved unreachable for fuel ≥ `max_results`). Each iteration
requests `current_limit = min(page_limit, max_results - len(collected))`
items at the current offset; status ≥ 400 raises; an absent-or-empty page
breaks returning `collected`; otherwise the page is appended, a short page
breaks, and a full page advances `offset` by `current_limit`. -/
def paginateFuel {α : Type} (envName : String) (ep : PageEndpoint α)
    (pageLimit maxResults : Nat) (fuel : Nat) (collected : List α)
    (offset : Nat) : Option (Except PagError (List α)) :=
  if collected.length < maxResults then
    match fuel with
    | 0 => none
    | fuel' + 1 =>
        let currentLimit := min pageLimit (maxResults - collected.length)
        let resp := ep offset currentLimit
        if 400 ≤ resp.status then
          some (.error ⟨resp.status, resp.text, envName⟩)
        else
          let pageItems := resp.items.getD []
          if pageItems.isEmpty then some (.ok collected)
          else if pageItems.length < currentLimit then
            some (.ok (collected ++ pageItems))
          else
            paginateFuel envName ep pageLimit maxResults fuel'
              (collected ++ pageItems) (offset + currentLimit)
  else some (.ok collected)

/-- `_paginate_request` with `page_limit = params.get("limit", 50)` passed as
`pageLimit` and the resolved environment name as `envName`: the loop starting
from `collected = []`, `offset = 0`, run with fuel `maxResults` (sufficient;
see the termination theorem). -/
def _paginate_request {α : Type} (envName : String) (ep : PageEndpoint α)
    (pageLimit maxResults : Nat) : Option (Except PagError (List α)) :=
  paginateFuel envName ep pageLimit maxResults maxResults [] 0

/-- A compliant mock endpoint holding `total` records (numbered `0..total-1`)
served in order: the request at (offset, limit) returns the slice
`store[offset : offset+limit]` with status 200. -/
def epStore (total : Nat) : PageEndpoint Nat :=
  fun offset limit => ⟨200, "", some (((List.range total).drop offset).take limit)⟩

/-! ## Response projectors
(`_extract_price_fields` / `_format_active_listing`, ebayAPItool.py
lines 102-119) -/

/-- The normalized record built by `_format_active_listing`; every field is a
Python value (`null` marks an absent source field). -/
structure ListingRecord where
  title : PyVal
  price : PyVal
  currency : PyVal
  end_date : PyVal
  item_url : PyVal
  buying_options : PyVal
  condition : PyVal
  seller_username : PyVal
  location : PyVal

/-- `_extract_price_fields(item)` (lines 102-104):
`price_data = item.get("currentBidPrice") or item.get("price") or {}`, then
`(price_data.get("value"), price_data.get("currency"))`. Both `item.get`s are
pure reads of the same dict, so evaluating the second eagerly matches the
short-circuiting source. A `.get` on a non-dict `price_data` raises. -/
def _extract_price_fields (item : PyVal) : Except String (PyVal × PyVal) :=
  match pyGet item "currentBidPrice" with
  | .error e => .error e
  | .ok cbp =>
    match pyGet item "price" with
    | .error e => .error e
    | .ok pr =>
      let price_data := pyOr (pyOr cbp pr) (.dict [])
      match pyGet price_data "value" with
      | .error e => .error e
      | .ok v =>
        match pyGet price_data "currency" with
        | .error e => .error e
        | .ok c => .ok (v, c)

/-- `_format_active_listing(item)` (lines 107-119): the price pair first, then
the remaining fields in source order; `seller` and `itemLocation` default to
`{}` when absent before the nested `.get`. -/
def _format_active_listing (item : PyVal) : Except String ListingRecord :=
  match _extract_price_fields item with
  | .error e => .error e
  | .ok pc =>
    match pyGet item "title" with
    | .error e => .error e
    | .ok title =>
      match pyGet item "itemEndDate" with
      | .error e => .error e
      | .ok end_date =>
        match pyGet item "itemWebUrl" with
        | .error e => .error e
        | .ok item_url =>
          match pyGet item "buyingOptions" with
          | .error e => .error e
          | .ok buying_options =>
            match pyGet item "condition" with
            | .error e => .error e
            | .ok condition =>
              match pyGetD item "seller" (.dict []) with
              | .error e => .error e
              | .ok seller =>
                match pyGet seller "username" with
                | .error e => .error e
                | .ok seller_username =>
                  match pyGetD item "itemLocation" (.dict []) with
                  | .error e => .error e
                  | .ok itemLocation =>
                    match pyGet itemLocation "postalCode" with
                    | .error e => .error e
                    | .ok location =>
                      .ok ⟨title, pc.1, pc.2, end_date, item_url,
                        buying_options, condition, seller_username, location⟩

/-! ## Generic REST invoker (`make_ebay_rest_request`, ebayAPItool.py
lines 256-293) -/

/-- The single HTTP response seen by `make_ebay_rest_request`: status, raw
body text, and the JSON decode outcome of that text (`none` when
`response.json()` raises `JSONDecodeError`). -/
structure RestResponse where
  status : Nat
  text : String
  jsonDecoded : Option PyVal

/-- The `RuntimeError` raised on status ≥ 400, carrying status, body and
environment name. -/
structure RestError where
  status : Nat
  body : String
  envName : String
deriving DecidableEq

/-- `make_ebay_rest_request` outcome logic (lines 282-293): raise on status
≥ 400; else, for a non-empty body return the decoded JSON, falling back to
the raw text on decode failure; an empty body returns Python `None`
(`PyVal.null`). -/
def make_ebay_rest_request (envName : String) (resp : RestResponse) :
    Except RestError PyVal :=
  if 400 ≤ resp.status then .error ⟨resp.status, resp.text, envName⟩
  else if resp.text = "" then .ok .null
  else
    match resp.jsonDecoded with
    | some v => .ok v
    | none => .ok (.str resp.text)

/-! ## Tool dispatch (`handle_call_tool`, server.py lines 167-281) -/

/-- One MCP text content, `types.TextContent(type="text", text=...)`. -/
structure TextContent where
  type : String
  text : String
deriving DecidableEq

/-- The four tool names accepted by `handle_call_tool` (lines 174-179). -/
def toolNames : List String :=
  ["list-auction", "list-active-listings", "list-sold-listings",
    "ebay-api-request"]

/-- Oracle for the effectful calls made inside the `try` block: the outcome of
`get_access_token` and of each API helper, each either the `str`-rendered
payload or the message of the exception it raised. -/
structure ToolEffects where
  tokenResult : Except String String
  auctionResult : Except String String
  activeResult : Except String String
  soldResult : Except String String
  restResult : Except String String

/-- The body of the `try` block (lines 188-273): obtain the token, then
dispatch on the tool name, validating required arguments with Python
truthiness (`if not query: raise ValueError("Missing query")`, etc.; a falsy
`ammount`/`limit` is silently defaulted, not an error). -/
def run_tool_body (eff : ToolEffects) (name : String)
    (args : List (String × PyVal)) : Except String String :=
  match eff.tokenResult with
  | .error e => .error e
  | .ok _ =>
    if name = "list-auction" then
      if !truthy (aget args "query") then .error "Missing query"
      else eff.auctionResult
    else if name = "list-active-listings" then
      if !truthy (aget args "query") then .error "Missing query"
      else eff.activeResult
    else if name = "list-sold-listings" then
      if !truthy (aget args "query") then .error "Missing query"
      else eff.soldResult
    else
      if !truthy (aget args "method") then .error "Missing method"
      else if !truthy (aget args "path") then .error "Missing path"
      else eff.restResult

/-- `handle_call_tool(name, arguments)` (lines 167-281): an unknown tool name
or a missing/empty argument mapping raises `ValueError` BEFORE the `try`
block (the `Except.error` arm, escaping to the MCP framework); everything the
`try` body raises is caught and rendered as a single text content whose text
is `"Error: "` followed by the exception message; a successful payload is
rendered as a single text content. -/
def handle_call_tool (eff : ToolEffects) (name : String)
    (arguments : Option (List (String × PyVal))) :
    Except String (List TextContent) :=
  if !toolNames.contains name then .error ("Unknown tool: " ++ name)
  else
    match arguments with
    | none => .error "Missing arguments"
    | some args =>
      if args.isEmpty then .error "Missing arguments"
      else
        match run_tool_body eff name args with
        | .ok payload => .ok [⟨"text", payload⟩]
        | .error e => .ok [⟨"text", "Error: " ++ e⟩]

/-! ## Helper lemmas about the pagination loop -/

theorem paginateFuel_done {α : Type} (envName : String) (ep : PageEndpoint α)
    (pageLimit maxResults fuel : Nat) (collected : List α) (offset : Nat)
    (h : ¬ collected.length < maxResults) :
    paginateFuel envName ep pageLimit maxResults fuel collected offset =
      some (.ok collected) := by
  rw [paginateFuel.eq_def]
  simp [h]

theorem paginateFuel_zero {α : Type} (envName : String) (ep : PageEndpoint α)
    (pageLimit maxResults : Nat) (collected : List α) (offset : Nat)
    (h : collected.length < maxResults) :
    paginateFuel envName ep pageLimit maxResults 0 collected offset = none := by
  rw [paginateFuel.eq_def]
  simp [h]

theorem paginateFuel_succ {α : Type} (envName : String) (ep : PageEndpoint α)
    (pageLimit maxResults fuel : Nat) (collected : List α) (offset : Nat)
    (h : collected.length < maxResults) :
    paginateFuel envName ep pageLimit maxResults (fuel + 1) collected offset =
      (if 400 ≤ (ep offset (min pageLimit (maxResults - collected.length))).status then
        some (.error
          ⟨(ep offset (min pageLimit (maxResults - collected.length))).status,
            (ep offset (min pageLimit (maxResults - collected.length))).text,
            envName⟩)
      else if ((ep offset
          (min pageLimit (maxResults - collected.length))).items.getD
            []).isEmpty then
        some (.ok collected)
      else if ((ep offset
          (min pageLimit (maxResults - collected.length))).items.getD
            []).length < min pageLimit (maxResults - collected.length) then
        some (.ok (collected ++ (ep offset
          (min pageLimit (maxResults - collected.length))).items.getD []))
      else
        paginateFuel envName ep pageLimit maxResults fuel
          (collected ++ (ep offset
            (min pageLimit (maxResults - collected.length))).items.getD [])
          (offset + min pageLimit (maxResults - collected.length))) := by
  conv_lhs => rw [paginateFuel.eq_def]
  simp [h]

/-- Fuel sufficiency: `max_results - len(collected)` iterations are always
enough, because every iteration that does not stop appends a non-empty page. -/
theorem paginateFuel_isSome {α : Type} (envName : String) (ep : PageEndpoint α)
    (pageLimit maxResults : Nat) :
    ∀ (fuel : Nat) (collected : List α) (offset : Nat),
      maxResults - collected.length ≤ fuel →
      paginateFuel envName ep pageLimit maxResults fuel collected offset ≠
        none := by
  intro fuel
  induction fuel with
  | zero =>
    intro collected offset hfuel
    have h : ¬ collected.length < maxResults := by omega
    rw [paginateFuel_done envName ep pageLimit maxResults 0 collected offset h]
    simp
  | succ fuel ih =>
    intro collected offset hfuel
    by_cases h : collected.length < maxResults
    · rw [paginateFuel_succ envName ep pageLimit maxResults fuel collected
        offset h]
      by_cases herr :
          400 ≤ (ep offset (min pageLimit (maxResults - collected.length))).status
      · rw [if_pos herr]
        simp
      · rw [if_neg herr]
        by_cases hempty :
            ((ep offset (min pageLimit
              (maxResults - collected.length))).items.getD []).isEmpty = true
        · rw [if_pos hempty]
          simp
        · rw [if_neg hempty]
          by_cases hshort :
              ((ep offset (min pageLimit
                (maxResults - collected.length))).items.getD []).length <
                min pageLimit (maxResults - collected.length)
          · rw [if_pos hshort]
            simp
          · rw [if_neg hshort]
            apply ih
            have hpos : ((ep offset (min pageLimit
                (maxResults - collected.length))).items.getD []).length ≠ 0 := by
              intro h0
              exact hempty (List.isEmpty_iff_length_eq_zero.mpr h0)
            simp only [List.length_append]
            omega
    · rw [paginateFuel_done envName ep pageLimit maxResults (fuel + 1)
        collected offset h]
      simp

/-- Length bound: when every page response holds at most the requested number
of items, the collected sequence never exceeds `max_results`. -/
theorem paginateFuel_length_le {α : Type} (envName : String)
    (ep : PageEndpoint α) (pageLimit maxResults : Nat)
    (hep : ∀ o l, ((ep o l).items.getD []).length ≤ l) :
    ∀ (fuel : Nat) (collected : List α) (offset : Nat),
      collected.length ≤ maxResults →
      ∀ r, paginateFuel envName ep pageLimit maxResults fuel collected offset =
          some (.ok r) →
        r.length ≤ maxResults := by
  intro fuel
  induction fuel with
  | zero =>
    intro collected offset hlen r hr
    by_cases h : collected.length < maxResults
    · rw [paginateFuel_zero envName ep pageLimit maxResults collected offset
        h] at hr
      simp at hr
    · rw [paginateFuel_done envName ep pageLimit maxResults 0 collected offset
        h] at hr
      simp at hr
      subst hr
      omega
  | succ fuel ih =>
    intro collected offset hlen r hr
    by_cases h : collected.length < maxResults
    · rw [paginateFuel_succ envName ep pageLimit maxResults fuel collected
        offset h] at hr
      by_cases herr :
          400 ≤ (ep offset (min pageLimit (maxResults - collected.length))).status
      · rw [if_pos herr] at hr
        simp at hr
      · rw [if_neg herr] at hr
        by_cases hempty :
            ((ep offset (min pageLimit
              (maxResults - collected.length))).items.getD []).isEmpty = true
        · rw [if_pos hempty] at hr
          simp at hr
          subst hr
          omega
        · rw [if_neg hempty] at hr
          have hbound := hep offset (min pageLimit
            (maxResults - collected.length))
          by_cases hshort :
              ((ep offset (min pageLimit
                (maxResults - collected.length))).items.getD []).length <
                min pageLimit (maxResults - collected.length)
          · rw [if_pos hshort] at hr
            simp at hr
            subst hr
            simp only [List.length_append]
            omega
          · rw [if_neg hshort] at hr
            apply ih _ _ _ r hr
            simp only [List.length_append]
            omega
    · rw [paginateFuel_done envName ep pageLimit maxResults (fuel + 1)
        collected offset h] at hr
      simp at hr
      subst hr
      omega

/-- Exact count on the compliant store endpoint: from an in-sync state
(offset equal to the number of collected records, within both bounds),
the loop collects exactly up to `min max_results total` records. -/
theorem paginateFuel_store (envName : String) (total pageLimit maxResults : Nat)
    (hpl : 1 ≤ pageLimit) :
    ∀ (fuel : Nat) (collected : List Nat) (offset : Nat),
      collected.length = offset → offset ≤ maxResults → offset ≤ total →
      maxResults - offset ≤ fuel →
      ∃ r, paginateFuel envName (epStore total) pageLimit maxResults fuel
          collected offset = some (.ok r) ∧
        r.length = collected.length + (min maxResults total - offset) := by
  intro fuel
  induction fuel with
  | zero =>
    intro collected offset hsync hoN hoT hfuel
    have h : ¬ collected.length < maxResults := by omega
    refine ⟨collected,
      paginateFuel_done envName (epStore total) pageLimit maxResults 0
        collected offset h, ?_⟩
    have hmin : min maxResults total = offset := by omega
    omega
  | succ fuel ih =>
    intro collected offset hsync hoN hoT hfuel
    by_cases h : collected.length < maxResults
    · rw [paginateFuel_succ envName (epStore total) pageLimit maxResults fuel
        collected offset h]
      simp only [epStore, Option.getD_some]
      rw [if_neg (by norm_num : ¬ (400:Nat) ≤ 200)]
      have hcl1 : 1 ≤ min pageLimit (maxResults - collected.length) := by
        omega
      have hlen : ((List.range total).drop offset |>.take
          (min pageLimit (maxResults - collected.length))).length =
          min (min pageLimit (maxResults - collected.length))
            (total - offset) := by
        simp
      by_cases hempty : ((List.range total).drop offset |>.take
          (min pageLimit (maxResults - collected.length))).isEmpty = true
      · -- empty page: the store is exhausted, so offset = total
        rw [if_pos hempty]
        have hlen0 := List.isEmpty_iff_length_eq_zero.mp hempty
        rw [hlen] at hlen0
        refine ⟨collected, rfl, ?_⟩
        have htot : total = offset := by omega
        have hmin : min maxResults total = offset := by omega
        omega
      · rw [if_neg hempty]
        have hlenpos : ((List.range total).drop offset |>.take
            (min pageLimit (maxResults - collected.length))).length ≠ 0 := by
          intro h0
          exact hempty (List.isEmpty_iff_length_eq_zero.mpr h0)
        by_cases hshort : ((List.range total).drop offset |>.take
            (min pageLimit (maxResults - collected.length))).length <
            min pageLimit (maxResults - collected.length)
        · -- short page: the store ran out before the requested limit
          rw [if_pos hshort]
          refine ⟨collected ++ ((List.range total).drop offset).take
            (min pageLimit (maxResults - collected.length)), rfl, ?_⟩
          rw [hlen] at hshort hlenpos
          have hmin : min maxResults total = total := by omega
          simp only [List.length_append]
          rw [hlen]
          omega
        · -- full page: recurse with offset advanced by the limit
          rw [if_neg hshort]
          rw [hlen] at hshort hlenpos
          have hfull : min (min pageLimit (maxResults - collected.length))
              (total - offset) =
              min pageLimit (maxResults - collected.length) := by
            omega
          obtain ⟨r, hr, hrlen⟩ := ih
            (collected ++ ((List.range total).drop offset).take
              (min pageLimit (maxResults - collected.length)))
            (offset + min pageLimit (maxResults - collected.length))
            (by simp only [List.length_append]; rw [hlen]; omega)
            (by omega) (by omega) (by omega)
          refine ⟨r, hr, ?_⟩
          rw [hrlen]
          simp only [List.length_append]
          rw [hlen]
          omega
    · have hoffN : offset = maxResults := by omega
      refine ⟨collected,
        paginateFuel_done envName (epStore total) pageLimit maxResults
          (fuel + 1) collected offset h, ?_⟩
      have hmin : min maxResults total = maxResults := by omega
      omega

/-! ## Claim theorems: the paginating fetcher -/

/-- An endpoint that ignores the requested limit and always returns a
two-item page. -/
def epOversized : PageEndpoint Nat := fun _ _ => ⟨200, "", some [0, 1]⟩

/-- Claim C1, counterexample: with `max_results = 1` and a page response
holding two records, `_paginate_request` returns both records — the flattened
result length exceeds `max_results`, because the loop appends whole pages
without truncation. -/
theorem paginate_result_can_exceed_max_results :
    _paginate_request "production" epOversized 50 1 = some (.ok [0, 1]) ∧
    ¬ (([0, 1] : List Nat).length ≤ 1) :=
  ⟨rfl, by decide⟩

/-- Claim C1, amended: when every page response holds at most the requested
number of records, the flattened result never exceeds `max_results`; and for
an endpoint holding `total` records served in pages until exhaustion (with a
positive page size), `fetch(max_results)` returns exactly
`min max_results total` records. -/
theorem paginate_bounded_and_exact (envName : String)
    (pageLimit maxResults total : Nat) (hpl : 1 ≤ pageLimit) :
    (∀ (α : Type) (ep : PageEndpoint α),
        (∀ o l, ((ep o l).items.getD []).length ≤ l) →
        ∀ r, _paginate_request envName ep pageLimit maxResults =
            some (.ok r) →
          r.length ≤ maxResults) ∧
    (∃ r, _paginate_request envName (epStore total) pageLimit maxResults =
        some (.ok r) ∧ r.length = min maxResults total) := by
  constructor
  · intro α ep hep r hr
    exact paginateFuel_length_le envName ep pageLimit maxResults hep
      maxResults [] 0 (by simp) r hr
  · obtain ⟨r, hr, hrlen⟩ := paginateFuel_store envName total pageLimit
      maxResults hpl maxResults [] 0 rfl (by omega) (by omega) (by omega)
    exact ⟨r, hr, by simpa using hrlen⟩

theorem paginate_bounded_and_exact_witness :
    (1 ≤ 2) ∧
    ((∀ (α : Type) (ep : PageEndpoint α),
        (∀ o l, ((ep o l).items.getD []).length ≤ l) →
        ∀ r, _paginate_request "production" ep 2 3 = some (.ok r) →
          r.length ≤ 3) ∧
      (∃ r, _paginate_request "production" (epStore 5) 2 3 =
          some (.ok r) ∧ r.length = min 3 5)) :=
  ⟨by decide, paginate_bounded_and_exact "production" 2 3 5 (by decide)⟩

/-- Claim C5: the page loop terminates — fuel `max_results - len(collected)`
iterations always suffice (each iteration either stops, fails, or strictly
grows the collected list), and in particular the loop run with fuel
`max_results` from the initial state never exhausts its fuel. -/
theorem paginate_loop_terminates :
    (∀ (α : Type) (envName : String) (ep : PageEndpoint α)
        (pageLimit maxResults fuel : Nat) (collected : List α) (offset : Nat),
        maxResults - collected.length ≤ fuel →
        paginateFuel envName ep pageLimit maxResults fuel collected offset ≠
          none) ∧
    (∀ (α : Type) (envName : String) (ep : PageEndpoint α)
        (pageLimit maxResults : Nat),
        _paginate_request envName ep pageLimit maxResults ≠ none) := by
  constructor
  · intro α envName ep pageLimit maxResults fuel collected offset hfuel
    exact paginateFuel_isSome envName ep pageLimit maxResults fuel collected
      offset hfuel
  · intro α envName ep pageLimit maxResults
    exact paginateFuel_isSome envName ep pageLimit maxResults maxResults [] 0
      (by simp)

theorem paginate_loop_terminates_witness :
    (3 - ([] : List Nat).length ≤ 3 ∧
      paginateFuel "production" (epStore 5) 2 3 3 [] 0 ≠ none) ∧
    _paginate_request "production" (epStore 5) 2 3 ≠ none :=
  ⟨⟨by decide,
      paginate_loop_terminates.1 Nat "production" (epStore 5) 2 3 3 [] 0
        (by decide)⟩,
    paginate_loop_terminates.2 Nat "production" (epStore 5) 2 3⟩

/-- Claim C6: at any reachable loop state, a page request answered with
status ≥ 400 makes the whole fetch fail at once with an error carrying the
status, the response body and the environment name; the records already in
`collected` do not appear in the outcome. -/
theorem paginate_http_error_aborts {α : Type} (envName : String)
    (ep : PageEndpoint α) (pageLimit maxResults fuel : Nat)
    (collected : List α) (offset : Nat)
    (hlt : collected.length < maxResults)
    (herr : 400 ≤
      (ep offset (min pageLimit (maxResults - collected.length))).status) :
    paginateFuel envName ep pageLimit maxResults (fuel + 1) collected offset =
      some (.error
        ⟨(ep offset (min pageLimit (maxResults - collected.length))).status,
          (ep offset (min pageLimit (maxResults - collected.length))).text,
          envName⟩) := by
  rw [paginateFuel_succ envName ep pageLimit maxResults fuel collected offset
    hlt]
  rw [if_pos herr]

/-- An endpoint whose every page request fails with HTTP 500. -/
def epFail : PageEndpoint Nat := fun _ _ => ⟨500, "boom", none⟩

theorem paginate_http_error_aborts_witness :
    (([7] : List Nat).length < 3 ∧ 400 ≤ (epFail 1 2).status) ∧
    paginateFuel "production" epFail 50 3 1 [7] 1 =
      some (.error ⟨500, "boom", "production"⟩) :=
  ⟨⟨by decide, by decide⟩,
    paginate_http_error_aborts "production" epFail 50 3 0 [7] 1 (by decide)
      (by decide)⟩

/-- Claim C7: at any reachable loop state with a successful page response,
an absent-or-empty results array stops the loop returning exactly what was
collected so far (not an error); and a short page (fewer items than the
requested `current_limit`) stops after appending it, issuing no further page
request — the outcome is the same for every endpoint agreeing on that one
page, even though `max_results` is not yet reached. -/
theorem paginate_stop_conditions {α : Type} (envName : String)
    (ep : PageEndpoint α) (pageLimit maxResults fuel : Nat)
    (collected : List α) (offset : Nat)
    (hlt : collected.length < maxResults)
    (hok : (ep offset (min pageLimit (maxResults - collected.length))).status
      < 400) :
    ((ep offset (min pageLimit (maxResults - collected.length))).items.getD []
        = [] →
      paginateFuel envName ep pageLimit maxResults (fuel + 1) collected offset
        = some (.ok collected)) ∧
    (∀ ep2 : PageEndpoint α,
      ep2 offset (min pageLimit (maxResults - collected.length)) =
        ep offset (min pageLimit (maxResults - collected.length)) →
      (ep offset (min pageLimit (maxResults - collected.length))).items.getD []
        ≠ [] →
      ((ep offset
          (min pageLimit (maxResults - collected.length))).items.getD
            []).length < min pageLimit (maxResults - collected.length) →
      paginateFuel envName ep2 pageLimit maxResults (fuel + 1) collected offset
        = some (.ok (collected ++ (ep offset
            (min pageLimit (maxResults - collected.length))).items.getD []))) := by
  constructor
  · intro hempty
    rw [paginateFuel_succ envName ep pageLimit maxResults fuel collected
      offset hlt]
    rw [if_neg (by omega)]
    rw [if_pos (by rw [hempty]; rfl)]
  · intro ep2 hagree hne hshort
    rw [paginateFuel_succ envName ep2 pageLimit maxResults fuel collected
      offset hlt]
    rw [hagree]
    rw [if_neg (by omega)]
    have hni : ¬ ((ep offset
        (min pageLimit (maxResults - collected.length))).items.getD
          []).isEmpty = true := by
      intro hcontra
      exact hne (List.eq_nil_of_length_eq_zero
        (List.isEmpty_iff_length_eq_zero.mp hcontra))
    rw [if_neg hni]
    rw [if_pos hshort]

/-- An endpoint that always answers with a single-item page (shorter than any
requested limit of at least two). -/
def epShort : PageEndpoint Nat := fun _ _ => ⟨200, "", some [4]⟩

theorem paginate_stop_conditions_witness :
    (([] : List Nat).length < 3 ∧ (epShort 0 2).status < 400) ∧
    paginateFuel "production" epShort 2 3 1 [] 0 = some (.ok [4]) :=
  ⟨⟨by decide, by decide⟩,
    (paginate_stop_conditions "production" epShort 2 3 0 [] 0 (by decide)
      (by decide)).2 epShort rfl (by decide) (by decide)⟩

/-! ## Claim theorems: the token cache -/

/-- Claim C2, counterexample: as stated the claim fails twice on the code.
With an empty client id the call raises the missing-credential error even
though a fresh token is cached (the credential check precedes the cache
read); and on a cache miss whose OAuth call fails, the result is not
persisted — no file write happens. -/
theorem token_cache_claim_counterexample :
    (get_access_token "" "secret" (some ⟨"tok", 10⟩) 0
        ⟨200, "new", 100, ""⟩).result = .error .missingCredential ∧
    (get_access_token "id" "secret" none 0 ⟨500, "", 0, "bad"⟩).fileWrites
      = 0 ∧
    (get_access_token "id" "secret" none 0 ⟨500, "", 0, "bad"⟩).finalFile
      = none :=
  ⟨rfl, rfl, rfl⟩

/-- Claim C2 (amended): provided both credentials are non-empty — if the
token file holds a record whose `expires_at` is strictly after now, the call
returns that `access_token` with no network call and no file write; if the
file is absent or the record is expired, it performs exactly one OAuth call
and, when that call returns status 200, persists the minted token and
returns it. -/
theorem get_access_token_cache_behavior (clientId clientSecret : String)
    (file : Option CachedToken) (now : Int) (resp : OAuthResponse)
    (hcid : clientId ≠ "") (hcs : clientSecret ≠ "") :
    (∀ t, file = some t → now < t.expires_at →
      get_access_token clientId clientSecret file now resp =
        ⟨.ok t.access_token, 0, 0, file⟩) ∧
    ((file = none ∨ ∃ t, file = some t ∧ t.expires_at ≤ now) →
      (get_access_token clientId clientSecret file now resp).networkCalls
        = 1 ∧
      (resp.status = 200 →
        get_access_token clientId clientSecret file now resp =
          ⟨.ok resp.accessToken, 1, 1,
            some ⟨resp.accessToken, now + (resp.expiresIn : Int)⟩⟩)) := by
  constructor
  · intro t ht hfresh
    subst ht
    simp [get_access_token, hcid, hcs, hfresh]
  · intro hstale
    have hred : get_access_token clientId clientSecret file now resp =
        mint_new_token file now resp := by
      rcases hstale with h | ⟨t, ht, hexp⟩
      · subst h
        simp [get_access_token, hcid, hcs]
      · subst ht
        have hnf : ¬ now < t.expires_at := by omega
        simp [get_access_token, hcid, hcs, hnf]
    constructor
    · rw [hred]
      by_cases h200 : resp.status = 200 <;> simp [mint_new_token, h200]
    · intro h200
      rw [hred]
      simp [mint_new_token, h200]

theorem get_access_token_cache_behavior_witness :
    ("id" ≠ "" ∧ "sec" ≠ "") ∧
    ((∀ t, some (⟨"tok", 10⟩ : CachedToken) = some t → (0 : Int) < t.expires_at →
      get_access_token "id" "sec" (some ⟨"tok", 10⟩) 0 ⟨200, "new", 100, ""⟩ =
        ⟨.ok t.access_token, 0, 0, some ⟨"tok", 10⟩⟩) ∧
    ((some (⟨"tok", 10⟩ : CachedToken) = none ∨
        ∃ t, some (⟨"tok", 10⟩ : CachedToken) = some t ∧ t.expires_at ≤ 0) →
      (get_access_token "id" "sec" (some ⟨"tok", 10⟩) 0
          ⟨200, "new", 100, ""⟩).networkCalls = 1 ∧
      ((⟨200, "new", 100, ""⟩ : OAuthResponse).status = 200 →
        get_access_token "id" "sec" (some ⟨"tok", 10⟩) 0 ⟨200, "new", 100, ""⟩ =
          ⟨.ok "new", 1, 1, some ⟨"new", 0 + ((100 : Nat) : Int)⟩⟩))) :=
  ⟨⟨by decide, by decide⟩,
    get_access_token_cache_behavior "id" "sec" (some ⟨"tok", 10⟩) 0
      ⟨200, "new", 100, ""⟩ (by decide) (by decide)⟩

/-- Claim C3, counterexample: a 204 response is not an HTTP failure in the
claim's sense (status < 400), yet the code raises — the success check is
`status == 200`, not `status < 400`. -/
theorem token_mint_status_counterexample :
    ¬ (400 ≤ 204) ∧
    (get_access_token "id" "secret" none 0 ⟨204, "tok", 100, "body"⟩).result =
      .error (.oauthFailure 204 "body") :=
  ⟨by decide, rfl⟩

/-- Claim C3 (amended): when minting, the call fails exactly when a
credential is empty (with the missing-credential message) or the OAuth
status differs from 200 (carrying the status and the response body); on
status 200 it returns the decoded token and overwrites the file in full with
`expires_at = now + expires_in`; exactly one network call is made either
way — no retry. -/
theorem get_access_token_mint_behavior (clientId clientSecret : String)
    (file : Option CachedToken) (now : Int) (resp : OAuthResponse) :
    ((clientId = "" ∨ clientSecret = "") →
      get_access_token clientId clientSecret file now resp =
        ⟨.error .missingCredential, 0, 0, file⟩) ∧
    (clientId ≠ "" → clientSecret ≠ "" →
      (file = none ∨ ∃ t, file = some t ∧ t.expires_at ≤ now) →
      (resp.status = 200 →
        get_access_token clientId clientSecret file now resp =
          ⟨.ok resp.accessToken, 1, 1,
            some ⟨resp.accessToken, now + (resp.expiresIn : Int)⟩⟩) ∧
      (resp.status ≠ 200 →
        get_access_token clientId clientSecret file now resp =
          ⟨.error (.oauthFailure resp.status resp.text), 1, 0, file⟩)) := by
  constructor
  · intro hmiss
    simp [get_access_token, hmiss]
  · intro hcid hcs hstale
    have hred : get_access_token clientId clientSecret file now resp =
        mint_new_token file now resp := by
      rcases hstale with h | ⟨t, ht, hexp⟩
      · subst h
        simp [get_access_token, hcid, hcs]
      · subst ht
        have hnf : ¬ now < t.expires_at := by omega
        simp [get_access_token, hcid, hcs, hnf]
    constructor
    · intro h200
      rw [hred]
      simp [mint_new_token, h200]
    · intro h200
      rw [hred]
      simp [mint_new_token, h200]

theorem get_access_token_mint_behavior_witness :
    ("id" ≠ "" ∧ "sec" ≠ "" ∧
      ((none : Option CachedToken) = none ∨
        ∃ t, (none : Option CachedToken) = some t ∧ t.expires_at ≤ (0 : Int)) ∧
      (204 : Nat) ≠ 200) ∧
    get_access_token "id" "sec" none 0 ⟨204, "tok", 100, "body"⟩ =
      ⟨.error (.oauthFailure 204 "body"), 1, 0, none⟩ :=
  ⟨⟨by decide, by decide, Or.inl rfl, by decide⟩,
    ((get_access_token_mint_behavior "id" "sec" none 0
        ⟨204, "tok", 100, "body"⟩).2 (by decide) (by decide)
      (Or.inl rfl)).2 (by decide)⟩

/-- Claim C4, counterexample: the two credential pairs differ, the first
call persists its token, and the second call — supplying the other pair —
is handed exactly that token back from the cache. -/
theorem token_cache_cross_pair_counterexample :
    ("idA", "secA") ≠ ("idB", "secB") ∧
    (get_access_token "idA" "secA" none 0 ⟨200, "tokA", 100, ""⟩).finalFile =
      some ⟨"tokA", 100⟩ ∧
    (get_access_token "idB" "secB" (some ⟨"tokA", 100⟩) 1
        ⟨500, "", 0, ""⟩).result = .ok "tokA" :=
  ⟨by decide, rfl, rfl⟩

/-- Claim C4 (amended): the persisted cache is keyed by the token file
alone, not by credential pair — a non-expired token persisted by a call with
one credential pair IS returned to a subsequent call supplying any other
non-empty pair, with no network call. -/
theorem token_cache_not_credential_keyed (id1 sec1 id2 sec2 : String)
    (now1 now2 : Int) (resp1 resp2 : OAuthResponse)
    (h1 : id1 ≠ "") (h2 : sec1 ≠ "") (h3 : id2 ≠ "") (h4 : sec2 ≠ "")
    (hok : resp1.status = 200)
    (hfresh : now2 < now1 + (resp1.expiresIn : Int)) :
    (get_access_token id2 sec2
        (get_access_token id1 sec1 none now1 resp1).finalFile now2
        resp2).result = .ok resp1.accessToken ∧
    (get_access_token id2 sec2
        (get_access_token id1 sec1 none now1 resp1).finalFile now2
        resp2).networkCalls = 0 := by
  have hfile : (get_access_token id1 sec1 none now1 resp1).finalFile =
      some ⟨resp1.accessToken, now1 + (resp1.expiresIn : Int)⟩ := by
    simp [get_access_token, h1, h2, mint_new_token, hok]
  rw [hfile]
  constructor <;> simp [get_access_token, h3, h4, hfresh]

theorem token_cache_not_credential_keyed_witness :
    ("idA" ≠ "" ∧ "secA" ≠ "" ∧ "idB" ≠ "" ∧ "secB" ≠ "" ∧
      (⟨200, "tokA", 100, ""⟩ : OAuthResponse).status = 200 ∧
      (1 : Int) < 0 + ((100 : Nat) : Int)) ∧
    ((get_access_token "idB" "secB"
        (get_access_token "idA" "secA" none 0 ⟨200, "tokA", 100, ""⟩).finalFile
        1 ⟨500, "", 0, ""⟩).result = .ok "tokA" ∧
      (get_access_token "idB" "secB"
        (get_access_token "idA" "secA" none 0 ⟨200, "tokA", 100, ""⟩).finalFile
        1 ⟨500, "", 0, ""⟩).networkCalls = 0) :=
  ⟨⟨by decide, by decide, by decide, by decide, rfl, by decide⟩,
    token_cache_not_credential_keyed "idA" "secA" "idB" "secB" 0 1
      ⟨200, "tokA", 100, ""⟩ ⟨500, "", 0, ""⟩ (by decide) (by decide)
      (by decide) (by decide) rfl (by decide)⟩

/-! ## Claim theorems: the tool dispatch error channel -/

/-- A trivial oracle whose token fetch and API calls all succeed. -/
def effTrivial : ToolEffects := ⟨.ok "tok", .ok "a", .ok "b", .ok "c", .ok "d"⟩

/-- An oracle whose token fetch raises with message "boom". -/
def effFailTok : ToolEffects :=
  ⟨.error "boom", .ok "a", .ok "b", .ok "c", .ok "d"⟩

/-- Claim C8, counterexample: an unknown tool name, and a missing argument
mapping, are raised as `ValueError` before the `try` block — these
caller-facing failures escape to the host as exceptions, not as a text
message prefixed with "Error: ". -/
theorem handle_call_tool_raises_counterexample :
    handle_call_tool effTrivial "bogus" (some [("query", .str "x")]) =
      .error "Unknown tool: bogus" ∧
    handle_call_tool effTrivial "list-auction" none =
      .error "Missing arguments" :=
  ⟨rfl, rfl⟩

/-- Claim C8 (amended): for a known tool name and a non-empty argument
mapping, the dispatch always answers with a single text content; every
failure raised inside the `try` body is rendered as that text with the
"Error: " marker prepended, and a success payload is rendered verbatim.
(An unknown tool name or an empty argument mapping instead raises to the
host, as the counterexample shows.) -/
theorem handle_call_tool_error_channel (eff : ToolEffects) (name : String)
    (args : List (String × PyVal))
    (hname : toolNames.contains name = true)
    (hargs : args.isEmpty = false) :
    (∃ s, handle_call_tool eff name (some args) = .ok [⟨"text", s⟩]) ∧
    (∀ e, run_tool_body eff name args = .error e →
      handle_call_tool eff name (some args) =
        .ok [⟨"text", "Error: " ++ e⟩]) ∧
    (∀ p, run_tool_body eff name args = .ok p →
      handle_call_tool eff name (some args) = .ok [⟨"text", p⟩]) := by
  have hred : handle_call_tool eff name (some args) =
      match run_tool_body eff name args with
      | .ok payload => .ok [⟨"text", payload⟩]
      | .error e => .ok [⟨"text", "Error: " ++ e⟩] := by
    unfold handle_call_tool
    rw [hname]
    simp [hargs]
  refine ⟨?_, ?_, ?_⟩
  · cases hrun : run_tool_body eff name args with
    | ok p => exact ⟨p, by rw [hred, hrun]⟩
    | error e => exact ⟨"Error: " ++ e, by rw [hred, hrun]⟩
  · intro e he
    rw [hred, he]
  · intro p hp
    rw [hred, hp]

theorem handle_call_tool_error_channel_witness :
    (toolNames.contains "list-auction" = true ∧
      ([("query", PyVal.str "x")]).isEmpty = false) ∧
    handle_call_tool effFailTok "list-auction"
        (some [("query", PyVal.str "x")]) =
      .ok [⟨"text", "Error: boom"⟩] :=
  ⟨⟨rfl, rfl⟩,
    (handle_call_tool_error_channel effFailTok "list-auction"
      [("query", PyVal.str "x")] rfl rfl).2.1 "boom" rfl⟩

/-! ## Claim theorems: the response projectors -/

/-- Claim C9, counterexample: the projector is not total — a non-dict
`currentBidPrice` raises `AttributeError`; and a present-but-empty (falsy)
`currentBidPrice` object is NOT used: the generic `price` field supplies the
value instead, because the selection uses Python truthiness, not presence. -/
theorem format_active_listing_counterexample :
    _format_active_listing (.dict [("currentBidPrice", .str "5")]) =
      .error "AttributeError" ∧
    (∃ rec, _format_active_listing (.dict [("currentBidPrice", .dict []),
        ("price", .dict [("value", .str "7"), ("currency", .str "USD")])]) =
      .ok rec ∧ rec.price = .str "7") :=
  ⟨rfl,
    ⟨⟨.null, .str "7", .str "USD", .null, .null, .null, .null, .null, .null⟩,
      rfl, rfl⟩⟩

theorem extract_price_fields_dict (fs : List (String × PyVal))
    (pdl : List (String × PyVal))
    (hpd : pyOr (pyOr (aget fs "currentBidPrice") (aget fs "price"))
      (.dict []) = .dict pdl) :
    _extract_price_fields (.dict fs) =
      .ok (aget pdl "value", aget pdl "currency") := by
  unfold _extract_price_fields
  simp [pyGet, hpd]

theorem format_active_listing_dict (fs : List (String × PyVal))
    (pdl ls ll : List (String × PyVal))
    (hpd : pyOr (pyOr (aget fs "currentBidPrice") (aget fs "price"))
      (.dict []) = .dict pdl)
    (hsel : (fs.lookup "seller").getD (.dict []) = .dict ls)
    (hloc : (fs.lookup "itemLocation").getD (.dict []) = .dict ll) :
    _format_active_listing (.dict fs) =
      .ok ⟨aget fs "title", aget pdl "value", aget pdl "currency",
        aget fs "itemEndDate", aget fs "itemWebUrl", aget fs "buyingOptions",
        aget fs "condition", aget ls "username", aget ll "postalCode"⟩ := by
  unfold _format_active_listing
  rw [extract_price_fields_dict fs pdl hpd]
  simp [pyGet, pyGetD, hsel, hloc]

/-- Claim C9 (amended): for an item object whose `currentBidPrice` and
`price` fields are objects whenever truthy and whose `seller` and
`itemLocation` fields, defaulted to `{}`, are objects, the projector returns
a record with no error; when both price fields are absent or falsy, the
record's price and currency are both absent (`null` — no fabricated zero or
empty string); the selected price source is `currentBidPrice` when truthy,
else `price` when truthy, else the empty object. -/
theorem format_active_listing_field_tolerance (fs : List (String × PyVal))
    (hcbp : truthy (aget fs "currentBidPrice") = true →
      ∃ l, aget fs "currentBidPrice" = .dict l)
    (hpr : truthy (aget fs "price") = true → ∃ l, aget fs "price" = .dict l)
    (hsel : ∃ l, (fs.lookup "seller").getD (.dict []) = .dict l)
    (hloc : ∃ l, (fs.lookup "itemLocation").getD (.dict []) = .dict l) :
    ∃ pdl rec,
      pyOr (pyOr (aget fs "currentBidPrice") (aget fs "price")) (.dict []) =
        .dict pdl ∧
      _format_active_listing (.dict fs) = .ok rec ∧
      rec.price = aget pdl "value" ∧ rec.currency = aget pdl "currency" ∧
      (truthy (aget fs "currentBidPrice") = false →
        truthy (aget fs "price") = false →
        rec.price = .null ∧ rec.currency = .null) ∧
      (truthy (aget fs "currentBidPrice") = true →
        pyOr (pyOr (aget fs "currentBidPrice") (aget fs "price")) (.dict [])
          = aget fs "currentBidPrice") := by
  obtain ⟨ls, hls⟩ := hsel
  obtain ⟨ll, hll⟩ := hloc
  by_cases hc : truthy (aget fs "currentBidPrice") = true
  · obtain ⟨l, hl⟩ := hcbp hc
    have hcl : truthy (PyVal.dict l) = true := by
      rw [← hl]
      exact hc
    have hpd : pyOr (pyOr (aget fs "currentBidPrice") (aget fs "price"))
        (.dict []) = .dict l := by
      simp [pyOr, hl, hcl]
    refine ⟨l, _, hpd, format_active_listing_dict fs l ls ll hpd hls hll,
      rfl, rfl, ?_, ?_⟩
    · intro hfalse
      rw [hc] at hfalse
      cases hfalse
    · intro _
      rw [hpd, hl]
  · by_cases hp : truthy (aget fs "price") = true
    · obtain ⟨l, hl⟩ := hpr hp
      have hpl : truthy (PyVal.dict l) = true := by
        rw [← hl]
        exact hp
      have hpd : pyOr (pyOr (aget fs "currentBidPrice") (aget fs "price"))
          (.dict []) = .dict l := by
        simp [pyOr, hc, hl, hpl]
      refine ⟨l, _, hpd, format_active_listing_dict fs l ls ll hpd hls hll,
        rfl, rfl, ?_, ?_⟩
      · intro _ hfalse
        rw [hp] at hfalse
        cases hfalse
      · intro hcontra
        exact absurd hcontra hc
    · have hpd : pyOr (pyOr (aget fs "currentBidPrice") (aget fs "price"))
          (.dict []) = .dict [] := by
        simp [pyOr, hc, hp]
      refine ⟨[], _, hpd, format_active_listing_dict fs [] ls ll hpd hls hll,
        rfl, rfl, ?_, ?_⟩
      · intro _ _
        constructor <;> rfl
      · intro hcontra
        exact absurd hcontra hc

theorem format_active_listing_field_tolerance_witness :
    ((truthy (aget [("price", PyVal.dict [("value", PyVal.str "5"),
          ("currency", PyVal.str "USD")])] "currentBidPrice") = true →
        ∃ l, aget [("price", PyVal.dict [("value", PyVal.str "5"),
          ("currency", PyVal.str "USD")])] "currentBidPrice" = .dict l) ∧
      (truthy (aget [("price", PyVal.dict [("value", PyVal.str "5"),
          ("currency", PyVal.str "USD")])] "price") = true →
        ∃ l, aget [("price", PyVal.dict [("value", PyVal.str "5"),
          ("currency", PyVal.str "USD")])] "price" = .dict l)) ∧
    (∃ pdl rec,
      pyOr (pyOr (aget [("price", PyVal.dict [("value", PyVal.str "5"),
          ("currency", PyVal.str "USD")])] "currentBidPrice")
        (aget [("price", PyVal.dict [("value", PyVal.str "5"),
          ("currency", PyVal.str "USD")])] "price")) (.dict []) = .dict pdl ∧
      _format_active_listing (.dict [("price",
          PyVal.dict [("value", PyVal.str "5"),
            ("currency", PyVal.str "USD")])]) = .ok rec ∧
      rec.price = aget pdl "value" ∧ rec.currency = aget pdl "currency" ∧
      (truthy (aget [("price", PyVal.dict [("value", PyVal.str "5"),
          ("currency", PyVal.str "USD")])] "currentBidPrice") = false →
        truthy (aget [("price", PyVal.dict [("value", PyVal.str "5"),
          ("currency", PyVal.str "USD")])] "price") = false →
        rec.price = .null ∧ rec.currency = .null) ∧
      (truthy (aget [("price", PyVal.dict [("value", PyVal.str "5"),
          ("currency", PyVal.str "USD")])] "currentBidPrice") = true →
        pyOr (pyOr (aget [("price", PyVal.dict [("value", PyVal.str "5"),
            ("currency", PyVal.str "USD")])] "currentBidPrice")
          (aget [("price", PyVal.dict [("value", PyVal.str "5"),
            ("currency", PyVal.str "USD")])] "price")) (.dict []) =
          aget [("price", PyVal.dict [("value", PyVal.str "5"),
            ("currency", PyVal.str "USD")])] "currentBidPrice")) :=
  ⟨⟨fun h => absurd h (by decide),
      fun _ => ⟨[("value", PyVal.str "5"), ("currency", PyVal.str "USD")],
        rfl⟩⟩,
    format_active_listing_field_tolerance
      [("price", PyVal.dict [("value", PyVal.str "5"),
        ("currency", PyVal.str "USD")])]
      (fun h => absurd h (by decide))
      (fun _ => ⟨[("value", PyVal.str "5"), ("currency", PyVal.str "USD")],
        rfl⟩)
      ⟨[], rfl⟩ ⟨[], rfl⟩⟩

/-! ## Claim theorems: the generic REST invoker -/

/-- Claim C10, counterexample: a 200 response whose body is the JSON text
"null" decodes to `None`, the very value returned for an empty body — the
no-content result is NOT distinguishable from every decoded-JSON outcome. -/
theorem rest_request_no_content_counterexample :
    "null" ≠ "" ∧
    make_ebay_rest_request "production" ⟨200, "null", some .null⟩ =
      .ok .null ∧
    make_ebay_rest_request "production" ⟨200, "", none⟩ = .ok .null ∧
    make_ebay_rest_request "production" ⟨200, "null", some .null⟩ =
      make_ebay_rest_request "production" ⟨200, "", none⟩ :=
  ⟨by decide, rfl, rfl, rfl⟩

/-- Claim C10 (amended): on a successful (status < 400) response — a
non-empty body that decodes as JSON yields the decoded value; a non-empty
body that fails to decode yields the raw text instead of failing; an empty
body yields the explicit no-content `None`, which differs from every
decoded-JSON outcome whose value is not JSON null (a body decoding to null
yields the same `None`, as the counterexample shows). -/
theorem rest_request_success_cases (envName : String) (resp : RestResponse)
    (hok : resp.status < 400) :
    (∀ v, resp.text ≠ "" → resp.jsonDecoded = some v →
      make_ebay_rest_request envName resp = .ok v) ∧
    (resp.text ≠ "" → resp.jsonDecoded = none →
      make_ebay_rest_request envName resp = .ok (.str resp.text)) ∧
    (resp.text = "" → make_ebay_rest_request envName resp = .ok .null) ∧
    (∀ v, resp.text ≠ "" → resp.jsonDecoded = some v → v ≠ .null →
      make_ebay_rest_request envName resp ≠ .ok .null) := by
  have hstat : ¬ 400 ≤ resp.status := by omega
  refine ⟨?_, ?_, ?_, ?_⟩
  · intro v hne hdec
    simp [make_ebay_rest_request, hstat, hne, hdec]
  · intro hne hdec
    simp [make_ebay_rest_request, hstat, hne, hdec]
  · intro hempty
    simp [make_ebay_rest_request, hstat, hempty]
  · intro v hne hdec hnn
    simp [make_ebay_rest_request, hstat, hne, hdec]
    intro hcontra
    exact hnn hcontra

theorem rest_request_success_cases_witness :
    ((⟨200, "body", some (PyVal.str "x")⟩ : RestResponse).status < 400 ∧
      ("body" : String) ≠ "" ∧ PyVal.str "x" ≠ PyVal.null) ∧
    (make_ebay_rest_request "production" ⟨200, "body", some (PyVal.str "x")⟩ =
        .ok (PyVal.str "x") ∧
      make_ebay_rest_request "production" ⟨200, "body", some (PyVal.str "x")⟩
        ≠ .ok PyVal.null) :=
  ⟨⟨by decide, by decide, fun h => nomatch h⟩,
    ⟨(rest_request_success_cases "production"
        ⟨200, "body", some (PyVal.str "x")⟩ (by decide)).1 (PyVal.str "x")
        (by decide) rfl,
      (rest_request_success_cases "production"
        ⟨200, "body", some (PyVal.str "x")⟩ (by decide)).2.2.2 (PyVal.str "x")
        (by decide) rfl (fun h => nomatch h)⟩⟩
